import Mathlib

/-!
Shallow embedding of the fact-checking core of `streamlit_app.py`.

The script's pure decision logic (claim extraction, static source retrieval,
heuristic credibility analysis, and the response handling of the two AI call
sites) is translated into executable Lean definitions.  Calls into external
libraries — `re.findall`, `json.loads`, and the `openai` chat-completion
client — are modelled as explicit function/`Except` parameters, since their
behaviour is not code of this repository; everything downstream of those call
results is translated from the source.  Confidence scores are modelled over
`ℚ`.  The `st.warning` side effects of the two AI wrappers are modelled as an
extra `List String` component of their results.  Python strings embed as Lean
`String` values, and the heterogeneous values that `json.loads` can return
embed as the inductive type `PyVal` (with Python strings injected via
`PyVal.str`).
-/

/-- Python's `needle in hay` substring test on lists of characters:
`needle` occurs contiguously inside `hay`. -/
def subOf (needle : List Char) : List Char → Bool
  | [] => needle.isEmpty
  | c :: t => needle.isPrefixOf (c :: t) || subOf needle t

/-- Python's `needle in hay` membership test for strings. -/
def isSubstr (needle hay : String) : Bool :=
  subOf needle.data hay.data

/-- Python's `str.lower()` (the source only feeds it ASCII text). -/
def pyLower (s : String) : String := String.mk (s.data.map Char.toLower)

/-- Python's `str.upper()` (the source only feeds it ASCII text). -/
def pyUpper (s : String) : String := String.mk (s.data.map Char.toUpper)

/-- Auxiliary for `pySplit`: accumulates the current word (reversed). -/
def pySplitAux : List Char → List Char → List String
  | [], acc => if acc.isEmpty then [] else [String.mk acc.reverse]
  | c :: t, acc =>
    if c.isWhitespace then
      (if acc.isEmpty then pySplitAux t [] else String.mk acc.reverse :: pySplitAux t [])
    else pySplitAux t (c :: acc)

/-- Python's argumentless `str.split()`: split on runs of whitespace,
dropping empty pieces. -/
def pySplit (s : String) : List String := pySplitAux s.data []

/-- Python's `str.strip()`: drop leading and trailing whitespace. -/
def pyStrip (s : String) : String :=
  String.mk (((s.data.dropWhile Char.isWhitespace).reverse.dropWhile Char.isWhitespace).reverse)

/-- Python's two-argument `max` on numbers (on ties the first argument,
which coincides with the lattice `max` value-wise). -/
def pyMax (a b : ℚ) : ℚ := if a < b then b else a

/-- Python's two-argument `min` on numbers. -/
def pyMin (a b : ℚ) : ℚ := if b < a then b else a

/-- Number of positions of `hay` at which `needle` occurs.  This is the
literal "occurrence count" of a phrase in a text; it is used only to state
the specification's reading of the cue-phrase counts against the code. -/
def countOccList (needle : List Char) : List Char → Nat
  | [] => 0
  | c :: t => (if needle.isPrefixOf (c :: t) then 1 else 0) + countOccList needle t

/-- `countOccList` on strings. -/
def countOcc (needle hay : String) : Nat := countOccList needle.data hay.data

/-- A web source record `{title, url, snippet}` as built by `search_web`. -/
structure SourceRecord where
  title : String
  url : String
  snippet : String
deriving DecidableEq, Repr

/-- The static demo lookup table of `search_web` (`demo_results`), in the
source's dict insertion order. -/
def demo_results : List (String × List SourceRecord) :=
  [("iphone 15 titanium",
    [⟨"Apple iPhone 15 Pro Features Titanium Design",
      "https://apple.com/newsroom",
      "The iPhone 15 Pro introduces a titanium design that\x27s lighter yet stronger than steel."⟩,
     ⟨"iPhone 15 Pro Review: Titanium Makes a Difference",
      "https://techcrunch.com",
      "Apple\x27s use of Grade 5 titanium in the iPhone 15 Pro results in the lightest Pro model ever."⟩]),
   ("water 8 glasses daily",
    [⟨"Mayo Clinic: How much water should you drink daily?",
      "https://mayoclinic.org",
      "The 8 glasses rule is a good starting point but individual needs vary based on activity, climate, and health."⟩,
     ⟨"Harvard Health: The importance of staying hydrated",
      "https://health.harvard.edu",
      "While 8 glasses is commonly cited, actual fluid needs depend on many factors including food intake."⟩]),
   ("great wall china space",
    [⟨"NASA: Great Wall of China Not Visible from Space",
      "https://nasa.gov",
      "Contrary to popular belief, the Great Wall of China is not visible from space with the naked eye."⟩,
     ⟨"Snopes: Can You See the Great Wall from Space?",
      "https://snopes.com",
      "This is a persistent myth. The wall is too narrow to be seen from space without aid."⟩])]

/-- `search_web(query, num_results=5)`: lower-cases the query, scans the demo
table in order and returns the records of the first key any of whose
whitespace-delimited tokens is a substring of the lower-cased query;
otherwise a single synthetic placeholder record.  `num_results` is accepted
and ignored, as in the source (its default there is `5`). -/
def search_web (query : String) (_num_results : Nat) : List SourceRecord :=
  let query_lower := pyLower query
  match demo_results.find? (fun kr => (pySplit kr.1).any (fun word => isSubstr word query_lower)) with
  | some kr => kr.2
  | none =>
    [⟨"Search results for: " ++ query,
      "https://example.com",
      "Multiple sources found. Verification in progress..."⟩]

/-- The three regex pattern strings of `extract_claims` (`claim_patterns`),
kept as data; `re.findall` itself is modelled as an oracle parameter. -/
def claim_patterns : List String :=
  ["[A-Z][^.!?]*(?:is|are|was|were|has|have|will|can|cannot|costs?|contains?|causes?)[^.!?]*[.!?]",
   "[A-Z][^.!?]*(?:\\d+|percent|%|million|billion|thousand)[^.!?]*[.!?]",
   "[A-Z][^.!?]*(?:studies show|research shows|according to|scientists|doctors)[^.!?]*[.!?]"]

/-- `extract_claims(text)`: concatenates the `re.findall` matches of the
three patterns; if there are none and the stripped input is longer than 10
characters, uses the stripped input as the single claim; truncates to the
first 3.  `findall pattern text` models `re.findall(pattern, text)`. -/
def extract_claims (findall : String → String → List String) (text : String) : List String :=
  let claims := (claim_patterns.map (fun p => findall p text)).flatten
  let claims := if claims = [] ∧ 10 < (pyStrip text).length then [pyStrip text] else claims
  claims.take 3

/-- A Python value as far as the script inspects `json.loads` results in
`extract_claims_ai`: a string, a list, or anything else. -/
inductive PyVal where
  | str : String → PyVal
  | list : List PyVal → PyVal
  | other : PyVal

/-- Python's truthiness test `if not openai.api_key` (negated): the key is
present iff it is neither `None` nor the empty string. -/
def key_present : Option String → Bool
  | none => false
  | some k => k != ""

/-- `extract_claims_ai(text)`: with no usable API key, or when the
chat-completion call raises (`Except.error`, carrying `str(e)`), returns the
heuristic `extract_claims` result (the error case also emits the warning);
on a successful call `claims_text` is the stripped response content:
`json.loads` success with a list returns that list as-is, success with a
non-list returns the raw response as the single claim, and parse failure
(`loads _ = none`, the bare `except`) returns the raw response if non-empty,
else the input text.  Result strings are injected into `PyVal` via
`PyVal.str`; the second component is the list of emitted warnings. -/
def extract_claims_ai (findall : String → String → List String) (api_key : Option String)
    (call : Except String String) (loads : String → Option PyVal) (text : String) :
    List PyVal × List String :=
  if key_present api_key then
    match call with
    | Except.error e =>
        ((extract_claims findall text).map PyVal.str, ["AI claim extraction failed: " ++ e])
    | Except.ok claims_text =>
        match loads claims_text with
        | some (PyVal.list xs) => (xs, [])
        | some _ => ([PyVal.str claims_text], [])
        | none => (if claims_text != "" then [PyVal.str claims_text] else [PyVal.str text], [])
  else ((extract_claims findall text).map PyVal.str, [])

/-- The positive cue phrases of `analyze_claim_credibility`. -/
def positive_words : List String :=
  ["confirmed", "verified", "proven", "research shows", "studies indicate", "according to experts"]

/-- The negative cue phrases of `analyze_claim_credibility`. -/
def negative_words : List String :=
  ["myth", "false", "debunked", "not true", "contrary to belief", "misconception"]

/-- `' '.join(r['snippet'] for r in search_results).lower()`, the text both
scores are computed against. -/
def joined_snippets (search_results : List SourceRecord) : String :=
  pyLower (String.intercalate " " (search_results.map (fun r => r.snippet)))

/-- `sum(1 for word in positive_words if word in ...)`: the number of the
six positive cue phrases that occur (at least once) in the snippet text. -/
def positive_score (search_results : List SourceRecord) : Nat :=
  (positive_words.filter (fun w => isSubstr w (joined_snippets search_results))).length

/-- `sum(1 for word in negative_words if word in ...)`: the number of the
six negative cue phrases that occur (at least once) in the snippet text. -/
def negative_score (search_results : List SourceRecord) : Nat :=
  (negative_words.filter (fun w => isSubstr w (joined_snippets search_results))).length

/-- `analyze_claim_credibility(claim, search_results)`: keyword-polarity
scoring over the concatenated lower-cased snippets.  The lower-cased claim
is computed and never used, exactly as in the source. -/
def analyze_claim_credibility (claim : String) (search_results : List SourceRecord) :
    String × ℚ × String :=
  let _claim_lower := pyLower claim
  if positive_score search_results < negative_score search_results then
    ("FALSE", pyMax 0.7 (pyMin 0.95 (0.7 + (negative_score search_results : ℚ) * 0.1)), "red")
  else if negative_score search_results < positive_score search_results then
    ("VERIFIED", pyMax 0.6 (pyMin 0.9 (0.6 + (positive_score search_results : ℚ) * 0.1)), "green")
  else
    ("DISPUTED", 0.5, "orange")

/-- Outcome of the `json.loads`-and-field-extraction step of
`analyze_claim_with_ai`: either all four fields were obtained (the values of
`result.get('verdict', 'INSUFFICIENT')`, `float(result.get('confidence',
0.5))`, `result.get('reasoning', 'Analysis completed')` and
`result.get('key_evidence', '')`), or `json.loads` raised
`json.JSONDecodeError`. -/
inductive ParsedAnalysis where
  | parsed : String → ℚ → String → String → ParsedAnalysis
  | parseError : ParsedAnalysis

/-- A Python return value of the analysis functions: the heuristic tier
returns a `(verdict, confidence, color)` triple, the AI tier a
`(verdict, confidence, color, reasoning, evidence)` quintuple. -/
inductive AnalyzeResult where
  | triple : String → ℚ → String → AnalyzeResult
  | quint : String → ℚ → String → String → String → AnalyzeResult
deriving DecidableEq

/-- Injects a heuristic `(verdict, confidence, color)` result into
`AnalyzeResult`. -/
def AnalyzeResult.ofTriple (t : String × ℚ × String) : AnalyzeResult :=
  AnalyzeResult.triple t.1 t.2.1 t.2.2

/-- The `color_map` dict lookup `color_map.get(verdict, 'orange')`. -/
def color_map (verdict : String) : String :=
  if verdict = "VERIFIED" then "green"
  else if verdict = "DISPUTED" then "orange"
  else if verdict = "FALSE" then "red"
  else if verdict = "INSUFFICIENT" then "orange"
  else "orange"

/-- `analyze_claim_with_ai(claim, search_results)`: with no usable API key,
or when the chat-completion call raises (`Except.error`, carrying `str(e)`),
returns the heuristic triple (the error case also emits the warning); on a
successful call `result_text` is the stripped response content: if the JSON
parse succeeds the quintuple is assembled with `color_map`, and on
`json.JSONDecodeError` the verdict is chosen by substring search for
`VERIFIED` then `FALSE` in the upper-cased raw response, which also becomes
the reasoning.  The second component is the list of emitted warnings. -/
def analyze_claim_with_ai (api_key : Option String) (call : Except String String)
    (parse : String → ParsedAnalysis) (claim : String) (search_results : List SourceRecord) :
    AnalyzeResult × List String :=
  if key_present api_key then
    match call with
    | Except.error e =>
        (AnalyzeResult.ofTriple (analyze_claim_credibility claim search_results),
         ["AI analysis failed: " ++ e])
    | Except.ok result_text =>
        match parse result_text with
        | ParsedAnalysis.parsed verdict confidence reasoning evidence =>
            (AnalyzeResult.quint verdict confidence (color_map verdict) reasoning evidence, [])
        | ParsedAnalysis.parseError =>
            if isSubstr "VERIFIED" (pyUpper result_text) then
              (AnalyzeResult.quint "VERIFIED" 0.8 "green" result_text "", [])
            else if isSubstr "FALSE" (pyUpper result_text) then
              (AnalyzeResult.quint "FALSE" 0.8 "red" result_text "", [])
            else
              (AnalyzeResult.quint "DISPUTED" 0.6 "orange" result_text "", [])
  else (AnalyzeResult.ofTriple (analyze_claim_credibility claim search_results), [])

/-- `pyMax` is bounded above by any common upper bound of its arguments. -/
theorem pyMax_le {a b c : ℚ} (h1 : a ≤ c) (h2 : b ≤ c) : pyMax a b ≤ c := by
  unfold pyMax; split <;> assumption

/-- `pyMax` is bounded below by its first argument. -/
theorem le_pyMax_left (a b : ℚ) : a ≤ pyMax a b := by
  unfold pyMax; split
  · exact le_of_lt (by assumption)
  · exact le_refl a

/-- `pyMin` is bounded above by its first argument. -/
theorem pyMin_le_left (a b : ℚ) : pyMin a b ≤ a := by
  unfold pyMin; split
  · exact le_of_lt (by assumption)
  · exact le_refl a

/-- Branch characterisation: more negative than positive cues. -/
theorem analyze_eq_FALSE (claim : String) (rs : List SourceRecord)
    (h : positive_score rs < negative_score rs) :
    analyze_claim_credibility claim rs =
      ("FALSE", pyMax 0.7 (pyMin 0.95 (0.7 + (negative_score rs : ℚ) * 0.1)), "red") := by
  rw [analyze_claim_credibility, if_pos h]

/-- Branch characterisation: more positive than negative cues. -/
theorem analyze_eq_VERIFIED (claim : String) (rs : List SourceRecord)
    (h : negative_score rs < positive_score rs) :
    analyze_claim_credibility claim rs =
      ("VERIFIED", pyMax 0.6 (pyMin 0.9 (0.6 + (positive_score rs : ℚ) * 0.1)), "green") := by
  rw [analyze_claim_credibility, if_neg (by omega), if_pos h]

/-- Branch characterisation: equal cue counts. -/
theorem analyze_eq_DISPUTED (claim : String) (rs : List SourceRecord)
    (h : positive_score rs = negative_score rs) :
    analyze_claim_credibility claim rs = ("DISPUTED", 0.5, "orange") := by
  rw [analyze_claim_credibility, if_neg (by omega), if_neg (by omega)]

/-- Claim C2: for every claim string and every list of source records, the
heuristic analyzer returns a verdict among VERIFIED, DISPUTED, FALSE and a
confidence in the closed interval [0.5, 0.95]. -/
theorem C2_heuristic_range (claim : String) (rs : List SourceRecord) :
    ((analyze_claim_credibility claim rs).1 = "VERIFIED" ∨
     (analyze_claim_credibility claim rs).1 = "DISPUTED" ∨
     (analyze_claim_credibility claim rs).1 = "FALSE") ∧
    (0.5 : ℚ) ≤ (analyze_claim_credibility claim rs).2.1 ∧
    (analyze_claim_credibility claim rs).2.1 ≤ 0.95 := by
  rcases Nat.lt_trichotomy (positive_score rs) (negative_score rs) with h | h | h
  · rw [analyze_eq_FALSE claim rs h]
    refine ⟨Or.inr (Or.inr rfl), ?_, ?_⟩
    · exact le_trans (by norm_num) (le_pyMax_left _ _)
    · exact pyMax_le (by norm_num) (pyMin_le_left _ _)
  · rw [analyze_eq_DISPUTED claim rs h]
    exact ⟨Or.inr (Or.inl rfl), by norm_num, by norm_num⟩
  · rw [analyze_eq_VERIFIED claim rs h]
    refine ⟨Or.inl rfl, ?_, ?_⟩
    · exact le_trans (by norm_num) (le_pyMax_left _ _)
    · exact le_trans (pyMax_le (by norm_num) (pyMin_le_left _ _)) (by norm_num)

/-- Claim C3: whenever the positive cue count equals the negative cue count,
the heuristic analyzer returns verdict DISPUTED, confidence exactly 0.5, and
the orange color tag. -/
theorem C3_tie_disputed (claim : String) (rs : List SourceRecord)
    (h : positive_score rs = negative_score rs) :
    analyze_claim_credibility claim rs = ("DISPUTED", 0.5, "orange") :=
  analyze_eq_DISPUTED claim rs h

/-- Witness for C3 at the empty source list, where both cue counts are 0. -/
theorem C3_tie_disputed_witness :
    positive_score [] = negative_score [] ∧
    analyze_claim_credibility "The moon is made of cheese" [] = ("DISPUTED", 0.5, "orange") :=
  ⟨by decide, C3_tie_disputed "The moon is made of cheese" [] (by decide)⟩

/-- Claim C10: the heuristic analyzer's output is independent of its claim
argument; verdict, confidence and color depend only on the source records. -/
theorem C10_claim_argument_irrelevant (c1 c2 : String) (rs : List SourceRecord) :
    analyze_claim_credibility c1 rs = analyze_claim_credibility c2 rs := rfl

/-- Claim C6: the static retriever on the iPhone query returns exactly the
two canned iPhone source records, in their table order. -/
theorem C6_iphone_static_retrieval :
    search_web "The iPhone 15 Pro has a titanium frame" 5 =
      [⟨"Apple iPhone 15 Pro Features Titanium Design",
        "https://apple.com/newsroom",
        "The iPhone 15 Pro introduces a titanium design that\x27s lighter yet stronger than steel."⟩,
       ⟨"iPhone 15 Pro Review: Titanium Makes a Difference",
        "https://techcrunch.com",
        "Apple\x27s use of Grade 5 titanium in the iPhone 15 Pro results in the lightest Pro model ever."⟩] := by
  decide

/-- Claim C7: when no token of any keyword-group key occurs in the
lower-cased query, the static retriever returns exactly one synthetic record
echoing the query, with the verification-in-progress snippet. -/
theorem C7_unknown_topic (query : String) (n : Nat)
    (h : ∀ kr ∈ demo_results, ∀ w ∈ pySplit kr.1, isSubstr w (pyLower query) = false) :
    search_web query n =
      [⟨"Search results for: " ++ query,
        "https://example.com",
        "Multiple sources found. Verification in progress..."⟩] := by
  have hf : demo_results.find?
      (fun kr => (pySplit kr.1).any (fun word => isSubstr word (pyLower query))) = none := by
    rw [List.find?_eq_none]
    intro kr hkr
    simp only [List.any_eq_true, not_exists, not_and, Bool.not_eq_true]
    intro w hw
    exact h kr hkr w hw
  rw [search_web]
  simp only [hf]

/-- Witness for C7 at the query "zzzq", which shares no token with any key. -/
theorem C7_unknown_topic_witness :
    (∀ kr ∈ demo_results, ∀ w ∈ pySplit kr.1, isSubstr w (pyLower "zzzq") = false) ∧
    search_web "zzzq" 5 =
      [⟨"Search results for: " ++ "zzzq",
        "https://example.com",
        "Multiple sources found. Verification in progress..."⟩] :=
  ⟨by decide, C7_unknown_topic "zzzq" 5 (by decide)⟩

/-- Claim C5: when none of the three regex patterns produces a match and the
stripped input is longer than 10 characters, the heuristic extractor returns
exactly one claim, the stripped input. -/
theorem C5_no_match_whole_input (findall : String → String → List String) (text : String)
    (h1 : ∀ p ∈ claim_patterns, findall p text = [])
    (h2 : 10 < (pyStrip text).length) :
    extract_claims findall text = [pyStrip text] := by
  simp only [claim_patterns, List.mem_cons, List.not_mem_nil, or_false,
    forall_eq_or_imp, forall_eq] at h1
  obtain ⟨e1, e2, e3⟩ := h1
  rw [extract_claims]
  simp only [claim_patterns, List.map, e1, e2, e3, List.flatten]
  rw [if_pos ⟨rfl, h2⟩]
  rfl

/-- Witness for C5 at an input that no pattern matches (the oracle returns
no matches) and whose stripped length is 21. -/
theorem C5_no_match_whole_input_witness :
    10 < (pyStrip "hello world out there").length ∧
    extract_claims (fun _ _ => []) "hello world out there" = [pyStrip "hello world out there"] :=
  ⟨by decide, C5_no_match_whole_input (fun _ _ => []) "hello world out there"
    (fun _ _ => rfl) (by decide)⟩

/-- Counterexample to claim C1: on the AI extractor's response-handling path,
a successful JSON parse of the model response that yields a four-element list
is returned as-is, so the number of extracted claims is 4, not at most 3. -/
theorem C1_counterexample :
    ¬ ((extract_claims_ai (fun _ _ => []) (some "sk-demo")
        (Except.ok "[\"a\", \"b\", \"c\", \"d\"]")
        (fun _ => some (PyVal.list [PyVal.str "a", PyVal.str "b", PyVal.str "c", PyVal.str "d"]))
        "some input text").1.length ≤ 3) := by
  decide

/-- Claim C1 as amended: the heuristic extractor always returns at most 3
claims; the AI extractor's response-handling path, after a successful JSON
parse, returns the parsed list unchanged when it is a list (so its length is
that of the parsed list, with no truncation to 3), and exactly one claim
(the raw response) when the parsed value is not a list. -/
theorem C1_amended_extraction_cap :
    (∀ (findall : String → String → List String) (text : String),
        (extract_claims findall text).length ≤ 3) ∧
    (∀ (findall : String → String → List String) (k : String)
        (loads : String → Option PyVal) (t text : String) (xs : List PyVal),
        k ≠ "" → loads t = some (PyVal.list xs) →
        (extract_claims_ai findall (some k) (Except.ok t) loads text).1 = xs) ∧
    (∀ (findall : String → String → List String) (k : String)
        (loads : String → Option PyVal) (t text : String) (v : PyVal),
        k ≠ "" → loads t = some v → (∀ xs, v ≠ PyVal.list xs) →
        (extract_claims_ai findall (some k) (Except.ok t) loads text).1 = [PyVal.str t]) := by
  refine ⟨fun findall text => ?_, fun findall k loads t text xs hk hl => ?_,
    fun findall k loads t text v hk hl hv => ?_⟩
  · rw [extract_claims]
    simp only [List.length_take]
    omega
  · rw [extract_claims_ai]
    simp only [key_present, bne_iff_ne, ne_eq, hk, not_false_eq_true, if_true, hl]
  · rw [extract_claims_ai]
    simp only [key_present, bne_iff_ne, ne_eq, hk, not_false_eq_true, if_true, hl]

/-- Witness for the amended C1 on a successful parse of a one-element list. -/
theorem C1_amended_extraction_cap_witness :
    ("sk-demo" ≠ "") ∧
    (extract_claims_ai (fun _ _ => []) (some "sk-demo") (Except.ok "[\"a\"]")
        (fun _ => some (PyVal.list [PyVal.str "a"])) "some input text").1 = [PyVal.str "a"] :=
  ⟨by decide, C1_amended_extraction_cap.2.1 (fun _ _ => []) "sk-demo"
    (fun _ => some (PyVal.list [PyVal.str "a"])) "[\"a\"]" "some input text"
    [PyVal.str "a"] (by decide) rfl⟩

/-- Counterexample to claim C4: with the single snippet "myth myth myth" the
phrase "myth" has 3 occurrences, so the claimed formula
clamp(0.7 + 0.1 x occurrences, 0.7, 0.95) yields 0.95, but the code counts
each cue phrase at most once and returns confidence 0.8. -/
theorem C4_counterexample :
    analyze_claim_credibility "a claim" [⟨"t", "u", "myth myth myth"⟩] =
      ("FALSE", 0.8, "red") ∧
    countOcc "myth" (joined_snippets [⟨"t", "u", "myth myth myth"⟩]) = 3 ∧
    pyMax 0.7 (pyMin 0.95 (0.7 + (3 : ℚ) * 0.1)) = 0.95 ∧
    (0.8 : ℚ) ≠ 0.95 := by
  refine ⟨?_, by decide, by norm_num [pyMax, pyMin], by norm_num⟩
  rw [analyze_eq_FALSE _ _ (by decide)]
  have hneg : negative_score [⟨"t", "u", "myth myth myth"⟩] = 1 := by decide
  rw [hneg]
  norm_num [pyMax, pyMin]

/-- Claim C4 as amended: the analyzer lower-cases the space-joined snippets
and counts, among the six positive and six negative cue phrases, how many
occur at least once (each phrase contributing at most 1 however often it
repeats); with those counts, negative > positive gives FALSE with confidence
clamp(0.7 + 0.1 x negCount, 0.7, 0.95), and positive > negative gives
VERIFIED with confidence clamp(0.6 + 0.1 x posCount, 0.6, 0.9). -/
theorem C4_amended_formula (claim : String) (rs : List SourceRecord) :
    (positive_score rs < negative_score rs →
      analyze_claim_credibility claim rs =
        ("FALSE", pyMax 0.7 (pyMin 0.95 (0.7 + (negative_score rs : ℚ) * 0.1)), "red")) ∧
    (negative_score rs < positive_score rs →
      analyze_claim_credibility claim rs =
        ("VERIFIED", pyMax 0.6 (pyMin 0.9 (0.6 + (positive_score rs : ℚ) * 0.1)), "green")) :=
  ⟨analyze_eq_FALSE claim rs, analyze_eq_VERIFIED claim rs⟩

/-- Witness for the amended C4 on a source list with one negative cue. -/
theorem C4_amended_formula_witness :
    positive_score [⟨"t", "u", "this is a myth"⟩] <
      negative_score [⟨"t", "u", "this is a myth"⟩] ∧
    analyze_claim_credibility "a claim" [⟨"t", "u", "this is a myth"⟩] =
      ("FALSE",
       pyMax 0.7 (pyMin 0.95 (0.7 + (negative_score [⟨"t", "u", "this is a myth"⟩] : ℚ) * 0.1)),
       "red") :=
  ⟨by decide, (C4_amended_formula "a claim" [⟨"t", "u", "this is a myth"⟩]).1 (by decide)⟩

/-- Claim C8: when the chat-completion call raises, AI claim extraction
returns exactly the heuristic extractor's result for the same input text,
and AI credibility analysis returns exactly the heuristic analyzer's result
for the same claim and source list; in both cases the function returns
normally with a single warning surfaced. -/
theorem C8_call_failure_fallback (k : String) (hk : k ≠ "") :
    (∀ (findall : String → String → List String) (loads : String → Option PyVal)
        (text e : String),
        extract_claims_ai findall (some k) (Except.error e) loads text =
          ((extract_claims findall text).map PyVal.str,
           ["AI claim extraction failed: " ++ e])) ∧
    (∀ (parse : String → ParsedAnalysis) (claim : String) (rs : List SourceRecord) (e : String),
        analyze_claim_with_ai (some k) (Except.error e) parse claim rs =
          (AnalyzeResult.ofTriple (analyze_claim_credibility claim rs),
           ["AI analysis failed: " ++ e])) := by
  constructor
  · intro findall loads text e
    rw [extract_claims_ai]
    simp only [key_present, bne_iff_ne, ne_eq, hk, not_false_eq_true, if_true]
  · intro parse claim rs e
    rw [analyze_claim_with_ai]
    simp only [key_present, bne_iff_ne, ne_eq, hk, not_false_eq_true, if_true]

/-- Witness for C8 with a concrete key, error message, input and sources. -/
theorem C8_call_failure_fallback_witness :
    ("sk-demo" ≠ "") ∧
    extract_claims_ai (fun _ _ => []) (some "sk-demo") (Except.error "connection refused")
        (fun _ => none) "hi" =
      ((extract_claims (fun _ _ => []) "hi").map PyVal.str,
       ["AI claim extraction failed: " ++ "connection refused"]) ∧
    analyze_claim_with_ai (some "sk-demo") (Except.error "connection refused")
        (fun _ => ParsedAnalysis.parseError) "a claim" [] =
      (AnalyzeResult.ofTriple (analyze_claim_credibility "a claim" []),
       ["AI analysis failed: " ++ "connection refused"]) :=
  ⟨by decide,
   (C8_call_failure_fallback "sk-demo" (by decide)).1 (fun _ _ => []) (fun _ => none)
     "hi" "connection refused",
   (C8_call_failure_fallback "sk-demo" (by decide)).2 (fun _ => ParsedAnalysis.parseError)
     "a claim" [] "connection refused"⟩

/-- Claim C9: when the AI analysis response fails to parse as JSON, the
verdict comes from case-insensitive substring search of the raw response —
VERIFIED gives (VERIFIED, 0.8, green), else FALSE gives (FALSE, 0.8, red),
else (DISPUTED, 0.6, orange) — and the raw response is the reasoning, with
the evidence empty and no warning emitted. -/
theorem C9_parse_failure_keyword (k t claim : String) (rs : List SourceRecord)
    (parse : String → ParsedAnalysis) (hk : k ≠ "")
    (hp : parse t = ParsedAnalysis.parseError) :
    (isSubstr "VERIFIED" (pyUpper t) = true →
      analyze_claim_with_ai (some k) (Except.ok t) parse claim rs =
        (AnalyzeResult.quint "VERIFIED" 0.8 "green" t "", [])) ∧
    (isSubstr "VERIFIED" (pyUpper t) = false → isSubstr "FALSE" (pyUpper t) = true →
      analyze_claim_with_ai (some k) (Except.ok t) parse claim rs =
        (AnalyzeResult.quint "FALSE" 0.8 "red" t "", [])) ∧
    (isSubstr "VERIFIED" (pyUpper t) = false → isSubstr "FALSE" (pyUpper t) = false →
      analyze_claim_with_ai (some k) (Except.ok t) parse claim rs =
        (AnalyzeResult.quint "DISPUTED" 0.6 "orange" t "", [])) := by
  refine ⟨fun h1 => ?_, fun h1 h2 => ?_, fun h1 h2 => ?_⟩ <;>
    rw [analyze_claim_with_ai] <;>
    simp only [key_present, bne_iff_ne, ne_eq, hk, not_false_eq_true, if_true, hp,
      h1, if_true, if_false] <;>
    simp [h2]

/-- Witness for C9 on a raw response containing the token VERIFIED. -/
theorem C9_parse_failure_keyword_witness :
    isSubstr "VERIFIED" (pyUpper "The claim is verified by all sources.") = true ∧
    analyze_claim_with_ai (some "sk-demo")
        (Except.ok "The claim is verified by all sources.")
        (fun _ => ParsedAnalysis.parseError) "a claim" [] =
      (AnalyzeResult.quint "VERIFIED" 0.8 "green"
        "The claim is verified by all sources." "", []) :=
  ⟨by decide,
   (C9_parse_failure_keyword "sk-demo" "The claim is verified by all sources." "a claim" []
     (fun _ => ParsedAnalysis.parseError) (by decide) rfl).1 (by decide)⟩
